import Mathlib

set_option autoImplicit false

/-!
A shallow embedding of surfman's multi-backend connection dispatcher
(`src/surfman/src/platform/generic/multi/connection.rs`) and of the Windows/ANGLE
backend connection (`src/surfman/src/platform/windows/angle/connection.rs`),
together with proofs of the specified properties.

Rust `Result<T, Error>` becomes `Except Error T`; the generic backend bound
(`DeviceInterface` plus `ConnectionInterface`) becomes a record of operations;
raw pointers (`HWND`) become `Nat` with the null pointer as `0`.
-/

/-- Model of the crate-level `Error` enum (declared outside the two given source
files), restricted to the variants these files use, plus `other` standing for the
remaining backend-native error variants so that distinct errors stay distinct. -/
inductive Error where
  | ConnectionFailed
  | IncompatibleAdapter
  | IncompatibleNativeWidget
  | other (code : Nat)
deriving DecidableEq, Repr

/-- Model of the `ConnectionInterface` trait (with its associated `Device`): a
backend is a record of the operations the multi dispatcher forwards to, over the
backend's own connection, adapter, device and native-widget types. The `Window`
type is shared because the dispatcher hands the same `&Window` to both backends. -/
structure ConnectionInterface (Window Conn Adpt Dev Widget : Type) where
  new : Except Error Conn
  create_adapter : Conn → Except Error Adpt
  create_hardware_adapter : Conn → Except Error Adpt
  create_low_power_adapter : Conn → Except Error Adpt
  create_software_adapter : Conn → Except Error Adpt
  create_device : Conn → Adpt → Except Error Dev
  from_winit_window : Window → Except Error Conn
  create_native_widget_from_winit_window : Conn → Window → Except Error Widget

namespace Multi

/-- The backend tag of a multi-layer value. -/
inductive Tag where
  | Default
  | Alternate
deriving DecidableEq, Repr

/-- `Connection<Def, Alt>`: a tagged union over the two backends' connections. -/
inductive Connection (DC AC : Type) where
  | Default : DC → Connection DC AC
  | Alternate : AC → Connection DC AC
deriving DecidableEq, Repr

/-- `Adapter<Def, Alt>` from `multi/device.rs`: tagged union over backend adapters. -/
inductive Adapter (DA AA : Type) where
  | Default : DA → Adapter DA AA
  | Alternate : AA → Adapter DA AA
deriving DecidableEq, Repr

/-- `Device<Def, Alt>` from `multi/device.rs`: tagged union over backend devices. -/
inductive Device (DD AD : Type) where
  | Default : DD → Device DD AD
  | Alternate : AD → Device DD AD
deriving DecidableEq, Repr

/-- `NativeWidget<Def, Alt>` from `multi/surface.rs`: tagged union over backend widgets. -/
inductive NativeWidget (DW AW : Type) where
  | Default : DW → NativeWidget DW AW
  | Alternate : AW → NativeWidget DW AW
deriving DecidableEq, Repr

variable {Window DC DA DD DW AC AA AD AW : Type}
variable (D : ConnectionInterface Window DC DA DD DW)
variable (A : ConnectionInterface Window AC AA AD AW)

/-- `Connection::new`: try the Default backend's constructor; on success wrap it,
on failure return the Alternate backend's result mapped into the `Alternate` tag. -/
def Connection.new : Except Error (Connection DC AC) :=
  match D.new with
  | Except.ok connection => Except.ok (Connection.Default connection)
  | Except.error _ => (A.new).map Connection.Alternate

/-- `Connection::create_adapter`: forward to the live backend and wrap the result. -/
def Connection.create_adapter : Connection DC AC → Except Error (Adapter DA AA)
  | Connection.Default connection => (D.create_adapter connection).map Adapter.Default
  | Connection.Alternate connection => (A.create_adapter connection).map Adapter.Alternate

/-- `Connection::create_hardware_adapter`: forward to the live backend and wrap. -/
def Connection.create_hardware_adapter : Connection DC AC → Except Error (Adapter DA AA)
  | Connection.Default connection =>
      (D.create_hardware_adapter connection).map Adapter.Default
  | Connection.Alternate connection =>
      (A.create_hardware_adapter connection).map Adapter.Alternate

/-- `Connection::create_low_power_adapter`: forward to the live backend and wrap. -/
def Connection.create_low_power_adapter : Connection DC AC → Except Error (Adapter DA AA)
  | Connection.Default connection =>
      (D.create_low_power_adapter connection).map Adapter.Default
  | Connection.Alternate connection =>
      (A.create_low_power_adapter connection).map Adapter.Alternate

/-- `Connection::create_software_adapter`: forward to the live backend and wrap. -/
def Connection.create_software_adapter : Connection DC AC → Except Error (Adapter DA AA)
  | Connection.Default connection =>
      (D.create_software_adapter connection).map Adapter.Default
  | Connection.Alternate connection =>
      (A.create_software_adapter connection).map Adapter.Alternate

/-- `Connection::create_device`: tags must match; a mismatch is
`Error::IncompatibleAdapter` before any backend call. -/
def Connection.create_device :
    Connection DC AC → Adapter DA AA → Except Error (Device DD AD)
  | Connection.Default connection, Adapter.Default adapter =>
      (D.create_device connection adapter).map Device.Default
  | Connection.Alternate connection, Adapter.Alternate adapter =>
      (A.create_device connection adapter).map Device.Alternate
  | _, _ => Except.error Error.IncompatibleAdapter

/-- `Connection::from_winit_window`: the same two-step probe as `new`, driven by
the window handle. -/
def Connection.from_winit_window (window : Window) : Except Error (Connection DC AC) :=
  match D.from_winit_window window with
  | Except.ok connection => Except.ok (Connection.Default connection)
  | Except.error _ => (A.from_winit_window window).map Connection.Alternate

/-- `Connection::create_native_widget_from_winit_window`: forward to the live
backend and wrap the widget. -/
def Connection.create_native_widget_from_winit_window :
    Connection DC AC → Window → Except Error (NativeWidget DW AW)
  | Connection.Default connection, window =>
      (D.create_native_widget_from_winit_window connection window).map NativeWidget.Default
  | Connection.Alternate connection, window =>
      (A.create_native_widget_from_winit_window connection window).map NativeWidget.Alternate

/-- The tag carried by a multi connection. -/
def Connection.tag {DC AC : Type} : Connection DC AC → Tag
  | Connection.Default _ => Tag.Default
  | Connection.Alternate _ => Tag.Alternate

/-- The tag carried by a multi adapter. -/
def Adapter.tag {DA AA : Type} : Adapter DA AA → Tag
  | Adapter.Default _ => Tag.Default
  | Adapter.Alternate _ => Tag.Alternate

/-- The tag carried by a multi device. -/
def Device.tag {DD AD : Type} : Device DD AD → Tag
  | Device.Default _ => Tag.Default
  | Device.Alternate _ => Tag.Alternate

/-- The tag carried by a multi native widget. -/
def NativeWidget.tag {DW AW : Type} : NativeWidget DW AW → Tag
  | NativeWidget.Default _ => Tag.Default
  | NativeWidget.Alternate _ => Tag.Alternate

end Multi

namespace Angle

/-- `VendorPreference` from `angle/device.rs`: the adapter-selection policy. -/
inductive VendorPreference where
  | None
  | Prefer (id : Nat)
  | Avoid (id : Nat)
deriving DecidableEq, Repr

/-- `INTEL_PCI_ID`: the Intel PCI vendor id used verbatim in vendor preferences. -/
def INTEL_PCI_ID : Nat := 0x8086

/-- `D3D_DRIVER_TYPE_UNKNOWN` from `winapi::um::d3dcommon` (value 0). -/
def D3D_DRIVER_TYPE_UNKNOWN : Nat := 0

/-- `D3D_DRIVER_TYPE_WARP` from `winapi::um::d3dcommon` (value 5). -/
def D3D_DRIVER_TYPE_WARP : Nat := 5

/-- Modelled from the spec: the `Adapter` struct lives in `angle/device.rs`,
which is not among the given sources. Per the spec, an adapter "identifies a
candidate GPU driver plus a vendor preference policy used during selection",
so it is a descriptor holding the driver type and the vendor preference. -/
structure Adapter where
  d3d_driver_type : Nat
  vendor_preference : VendorPreference
deriving DecidableEq, Repr

/-- Modelled from the spec: `Adapter::new` (in the missing `angle/device.rs`)
builds the adapter descriptor for the requested driver type and vendor
preference; the spec calls adapters "a cheap, copyable descriptor with no native
resource". -/
def Adapter.new (driver_type : Nat) (vp : VendorPreference) : Except Error Adapter :=
  Except.ok { d3d_driver_type := driver_type, vendor_preference := vp }

/-- Modelled from the spec: the `Device` struct (in the missing `angle/device.rs`)
is "an opened, thread-confined handle to a GPU context" for a given adapter. -/
structure Device where
  adapter : Adapter
deriving DecidableEq, Repr

/-- Modelled from the spec: `Device::new` (in the missing `angle/device.rs`)
"opens a GPU context for the given adapter descriptor". -/
def Device.new (adapter : Adapter) : Except Error Device :=
  Except.ok { adapter := adapter }

/-- `NativeWidget` from `angle/surface.rs` (not among the given sources, but its
use here fixes its shape): it wraps the raw `HWND` window handle, modelled as a
`Nat` with the null pointer as `0`. -/
structure NativeWidget where
  window_handle : Nat
deriving DecidableEq, Repr

/-- Model of the external `winit::Window` at its call boundary: the core only
needs `get_hwnd`, the raw native window handle (null modelled as `0`). -/
structure Window where
  get_hwnd : Nat
deriving DecidableEq, Repr

/-- The Windows/ANGLE `Connection`: a zero-sized, stateless capability token. -/
structure Connection where
deriving DecidableEq, Repr

/-- `Connection::new`: always succeeds with the unit token. -/
def Connection.new : Except Error Connection :=
  Except.ok {}

/-- `Connection::create_hardware_adapter`: driver type unknown, avoid Intel. -/
def Connection.create_hardware_adapter (_c : Connection) : Except Error Adapter :=
  Adapter.new D3D_DRIVER_TYPE_UNKNOWN (VendorPreference.Avoid INTEL_PCI_ID)

/-- `Connection::create_adapter`: an alias for `create_hardware_adapter`. -/
def Connection.create_adapter (c : Connection) : Except Error Adapter :=
  c.create_hardware_adapter

/-- `Connection::create_low_power_adapter`: driver type unknown, prefer Intel. -/
def Connection.create_low_power_adapter (_c : Connection) : Except Error Adapter :=
  Adapter.new D3D_DRIVER_TYPE_UNKNOWN (VendorPreference.Prefer INTEL_PCI_ID)

/-- `Connection::create_software_adapter`: the WARP driver, no vendor preference. -/
def Connection.create_software_adapter (_c : Connection) : Except Error Adapter :=
  Adapter.new D3D_DRIVER_TYPE_WARP VendorPreference.None

/-- `Connection::create_device`: forwards to `Device::new` on the adapter. -/
def Connection.create_device (_c : Connection) (adapter : Adapter) : Except Error Device :=
  Device.new adapter

/-- `Connection::from_winit_window`: ignores the window, equals `new`. -/
def Connection.from_winit_window (_w : Window) : Except Error Connection :=
  Connection.new

/-- `Connection::create_native_widget_from_winit_window`: take the window's
`HWND`; a null handle is `Error::IncompatibleNativeWidget`, otherwise wrap it. -/
def Connection.create_native_widget_from_winit_window (_c : Connection) (window : Window) :
    Except Error NativeWidget :=
  let hwnd := window.get_hwnd
  if hwnd = 0 then
    Except.error Error.IncompatibleNativeWidget
  else
    Except.ok { window_handle := hwnd }

/-- The Windows/ANGLE backend packaged as a `ConnectionInterface` record, as its
`ConnectionInterface for Connection` trait impl does. -/
def backend : ConnectionInterface Window Connection Adapter Device NativeWidget where
  new := Connection.new
  create_adapter := Connection.create_adapter
  create_hardware_adapter := Connection.create_hardware_adapter
  create_low_power_adapter := Connection.create_low_power_adapter
  create_software_adapter := Connection.create_software_adapter
  create_device := Connection.create_device
  from_winit_window := Connection.from_winit_window
  create_native_widget_from_winit_window := Connection.create_native_widget_from_winit_window

end Angle

namespace Toy

/-- A toy backend over `Nat` whose operations all succeed, used to exercise the
generic dispatcher on concrete inputs. -/
def ok : ConnectionInterface Nat Nat Nat Nat Nat where
  new := Except.ok 0
  create_adapter := fun c => Except.ok (c + 1)
  create_hardware_adapter := fun c => Except.ok (c + 1)
  create_low_power_adapter := fun c => Except.ok (c + 2)
  create_software_adapter := fun c => Except.ok (c + 3)
  create_device := fun c a => Except.ok (c + a)
  from_winit_window := fun w => Except.ok w
  create_native_widget_from_winit_window := fun c w => Except.ok (c * 10 + w)

/-- A toy backend over `Nat` whose operations all fail with distinct errors,
used to exercise the dispatcher's error propagation on concrete inputs. -/
def err : ConnectionInterface Nat Nat Nat Nat Nat where
  new := Except.error (Error.other 7)
  create_adapter := fun _ => Except.error (Error.other 1)
  create_hardware_adapter := fun _ => Except.error (Error.other 2)
  create_low_power_adapter := fun _ => Except.error (Error.other 3)
  create_software_adapter := fun _ => Except.error (Error.other 4)
  create_device := fun _ _ => Except.error (Error.other 5)
  from_winit_window := fun _ => Except.error (Error.other 6)
  create_native_widget_from_winit_window := fun _ _ => Except.error (Error.other 8)

end Toy

/-- Inverting `Except.map` on a success: if `x.map f` is `ok b`, then `x` was
`ok a` with `b = f a`. -/
theorem except_map_eq_ok {α β : Type} {f : α → β} {x : Except Error α} {b : β}
    (h : x.map f = Except.ok b) : ∃ a, x = Except.ok a ∧ b = f a := by
  cases x with
  | ok a =>
      simp only [Except.map] at h
      exact ⟨a, rfl, (Except.ok.inj h).symm⟩
  | error e => simp [Except.map] at h

/-- Claim C1: for every pair of backends, `Multi::Connection::new` is a fixed
two-step probe: if the Default backend's constructor succeeds, the result wraps
exactly that value with the `Default` tag and is independent of the Alternate
backend; if it fails and the Alternate's succeeds, the result wraps the
Alternate's value with the `Alternate` tag; if both fail, the result is exactly
the Alternate's error, the Default's error being discarded. -/
theorem multi_connection_new_two_step_probe
    {Window DC DA DD DW AC AA AD AW : Type}
    (D : ConnectionInterface Window DC DA DD DW)
    (A : ConnectionInterface Window AC AA AD AW) :
    (∀ c, D.new = Except.ok c →
        Multi.Connection.new D A = Except.ok (Multi.Connection.Default c)) ∧
    (∀ c, D.new = Except.ok c →
        ∀ A2 : ConnectionInterface Window AC AA AD AW,
          Multi.Connection.new D A = Multi.Connection.new D A2) ∧
    (∀ e c, D.new = Except.error e → A.new = Except.ok c →
        Multi.Connection.new D A = Except.ok (Multi.Connection.Alternate c)) ∧
    (∀ e eAlt, D.new = Except.error e → A.new = Except.error eAlt →
        Multi.Connection.new D A = Except.error eAlt) := by
  refine ⟨?_, ?_, ?_, ?_⟩
  · intro c h
    simp [Multi.Connection.new, h]
  · intro c h A2
    simp [Multi.Connection.new, h]
  · intro e c hD hA
    simp [Multi.Connection.new, hD, hA, Except.map]
  · intro e eAlt hD hA
    simp [Multi.Connection.new, hD, hA, Except.map]

/-- Witness for C1 on the concrete toy backends: all three probe outcomes. -/
theorem multi_connection_new_two_step_probe_witness :
    Multi.Connection.new Toy.ok Toy.err = Except.ok (Multi.Connection.Default 0) ∧
    Multi.Connection.new Toy.ok Toy.err = Multi.Connection.new Toy.ok Toy.ok ∧
    Multi.Connection.new Toy.err Toy.ok = Except.ok (Multi.Connection.Alternate 0) ∧
    Multi.Connection.new Toy.err Toy.err = Except.error (Error.other 7) :=
  ⟨(multi_connection_new_two_step_probe Toy.ok Toy.err).1 0 rfl,
   (multi_connection_new_two_step_probe Toy.ok Toy.err).2.1 0 rfl Toy.ok,
   (multi_connection_new_two_step_probe Toy.err Toy.ok).2.2.1 (Error.other 7) 0 rfl rfl,
   (multi_connection_new_two_step_probe Toy.err Toy.err).2.2.2 (Error.other 7)
     (Error.other 7) rfl rfl⟩

/-- Claim C2: for every pair of backends and all wrapped values, a cross-tagged
connection/adapter pair given to `create_device` always yields
`Error::IncompatibleAdapter`, with no backend code consulted. -/
theorem multi_create_device_mismatched_tags
    {Window DC DA DD DW AC AA AD AW : Type}
    (D : ConnectionInterface Window DC DA DD DW)
    (A : ConnectionInterface Window AC AA AD AW) :
    (∀ (c : DC) (a : AA),
        Multi.Connection.create_device D A (Multi.Connection.Default c)
            (Multi.Adapter.Alternate a)
          = Except.error Error.IncompatibleAdapter) ∧
    (∀ (c : AC) (a : DA),
        Multi.Connection.create_device D A (Multi.Connection.Alternate c)
            (Multi.Adapter.Default a)
          = Except.error Error.IncompatibleAdapter) :=
  ⟨fun _ _ => rfl, fun _ _ => rfl⟩

/-- Claim C3: for every pair of backends, `create_device` on a matching
connection/adapter pair is exactly the corresponding backend's device
constructor applied to the wrapped values, its result re-wrapped under the
connection's tag. -/
theorem multi_create_device_matched_forwards
    {Window DC DA DD DW AC AA AD AW : Type}
    (D : ConnectionInterface Window DC DA DD DW)
    (A : ConnectionInterface Window AC AA AD AW) :
    (∀ (c : DC) (a : DA),
        Multi.Connection.create_device D A (Multi.Connection.Default c)
            (Multi.Adapter.Default a)
          = (D.create_device c a).map Multi.Device.Default) ∧
    (∀ (c : AC) (a : AA),
        Multi.Connection.create_device D A (Multi.Connection.Alternate c)
            (Multi.Adapter.Alternate a)
          = (A.create_device c a).map Multi.Device.Alternate) :=
  ⟨fun _ _ => rfl, fun _ _ => rfl⟩

/-- Claim C4: on the Windows/ANGLE backend, for every connection,
`create_hardware_adapter` requests driver type unknown with vendor preference
`Avoid 0x8086`, `create_low_power_adapter` requests the same driver type with the
opposite polarity `Prefer 0x8086`, and `create_software_adapter` requests the
WARP driver type with vendor preference `None`. -/
theorem angle_adapter_request_policy (c : Angle.Connection) :
    c.create_hardware_adapter
      = Except.ok { d3d_driver_type := Angle.D3D_DRIVER_TYPE_UNKNOWN,
                    vendor_preference := Angle.VendorPreference.Avoid 0x8086 } ∧
    c.create_low_power_adapter
      = Except.ok { d3d_driver_type := Angle.D3D_DRIVER_TYPE_UNKNOWN,
                    vendor_preference := Angle.VendorPreference.Prefer 0x8086 } ∧
    c.create_software_adapter
      = Except.ok { d3d_driver_type := Angle.D3D_DRIVER_TYPE_WARP,
                    vendor_preference := Angle.VendorPreference.None } :=
  ⟨rfl, rfl, rfl⟩

/-- Claim C5: on the Windows/ANGLE backend,
`create_native_widget_from_winit_window` fails with
`Error::IncompatibleNativeWidget` exactly when the window's native handle is the
null value; every non-null handle yields a widget wrapping exactly that handle,
so a constructed widget never holds a null handle. -/
theorem angle_native_widget_null_check (c : Angle.Connection) (w : Angle.Window) :
    (c.create_native_widget_from_winit_window w
        = Except.error Error.IncompatibleNativeWidget ↔ w.get_hwnd = 0) ∧
    (w.get_hwnd ≠ 0 →
      c.create_native_widget_from_winit_window w
        = Except.ok { window_handle := w.get_hwnd }) ∧
    (∀ n, c.create_native_widget_from_winit_window w = Except.ok n →
      n.window_handle ≠ 0) := by
  refine ⟨⟨?_, ?_⟩, ?_, ?_⟩
  · intro h
    by_contra hne
    simp [Angle.Connection.create_native_widget_from_winit_window, hne] at h
  · intro h
    simp [Angle.Connection.create_native_widget_from_winit_window, h]
  · intro h
    simp [Angle.Connection.create_native_widget_from_winit_window, h]
  · intro n hn
    by_cases h : w.get_hwnd = 0
    · simp [Angle.Connection.create_native_widget_from_winit_window, h] at hn
    · simp [Angle.Connection.create_native_widget_from_winit_window, h] at hn
      rw [← hn]
      exact h

/-- Witness for C5 at the concrete handle 5: the widget wraps exactly 5, and the
constructed widget's handle is non-null. -/
theorem angle_native_widget_null_check_witness :
    Angle.Connection.create_native_widget_from_winit_window {} { get_hwnd := 5 }
        = Except.ok { window_handle := 5 } ∧
    ({ window_handle := 5 } : Angle.NativeWidget).window_handle ≠ 0 :=
  ⟨(angle_native_widget_null_check {} { get_hwnd := 5 }).2.1 (by decide),
   (angle_native_widget_null_check {} { get_hwnd := 5 }).2.2 { window_handle := 5 }
     ((angle_native_widget_null_check {} { get_hwnd := 5 }).2.1 (by decide))⟩

/-- Claim C6: `create_adapter` and `create_hardware_adapter` return identical
results for the same connection state: literally on the Windows/ANGLE backend,
and at the multi dispatcher level for every backend pair whose two members each
satisfy the alias. -/
theorem create_adapter_is_hardware_alias :
    (∀ c : Angle.Connection, c.create_adapter = c.create_hardware_adapter) ∧
    (∀ {Window DC DA DD DW AC AA AD AW : Type}
        (D : ConnectionInterface Window DC DA DD DW)
        (A : ConnectionInterface Window AC AA AD AW),
        (∀ c, D.create_adapter c = D.create_hardware_adapter c) →
        (∀ c, A.create_adapter c = A.create_hardware_adapter c) →
        ∀ conn : Multi.Connection DC AC,
          Multi.Connection.create_adapter D A conn
            = Multi.Connection.create_hardware_adapter D A conn) := by
  refine ⟨fun _ => rfl, ?_⟩
  intro Window DC DA DD DW AC AA AD AW D A hD hA conn
  cases conn with
  | Default c =>
      simp [Multi.Connection.create_adapter, Multi.Connection.create_hardware_adapter, hD]
  | Alternate c =>
      simp [Multi.Connection.create_adapter, Multi.Connection.create_hardware_adapter, hA]

/-- Witness for C6 at the multi level, with the ANGLE backend (which satisfies
the alias) on both slots and a concrete Default-tagged connection. -/
theorem create_adapter_is_hardware_alias_witness :
    Multi.Connection.create_adapter Angle.backend Angle.backend
        (Multi.Connection.Default {})
      = Multi.Connection.create_hardware_adapter Angle.backend Angle.backend
        (Multi.Connection.Default {}) :=
  create_adapter_is_hardware_alias.2 Angle.backend Angle.backend
    (fun _ => rfl) (fun _ => rfl) (Multi.Connection.Default {})

/-- Claim C8: on the Windows/ANGLE backend, `Connection::new` always succeeds,
and `from_winit_window` equals `new` for every window argument. -/
theorem angle_new_always_ok :
    Angle.Connection.new = Except.ok {} ∧
    ∀ w : Angle.Window, Angle.Connection.from_winit_window w = Angle.Connection.new :=
  ⟨rfl, fun _ => rfl⟩

/-- Claim C7: for every pair of backends, every forwarded dispatcher operation
returns a backend error exactly as the live backend produced it — no
reinterpretation, wrapping, retry, or local recovery — for both tags and for
all of `create_adapter`, `create_hardware_adapter`, `create_low_power_adapter`,
`create_software_adapter`, matching-pair `create_device`, and
`create_native_widget_from_winit_window`. -/
theorem multi_error_propagation
    {Window DC DA DD DW AC AA AD AW : Type}
    (D : ConnectionInterface Window DC DA DD DW)
    (A : ConnectionInterface Window AC AA AD AW) :
    (∀ c e, D.create_adapter c = Except.error e →
        Multi.Connection.create_adapter D A (Multi.Connection.Default c)
          = Except.error e) ∧
    (∀ c e, A.create_adapter c = Except.error e →
        Multi.Connection.create_adapter D A (Multi.Connection.Alternate c)
          = Except.error e) ∧
    (∀ c e, D.create_hardware_adapter c = Except.error e →
        Multi.Connection.create_hardware_adapter D A (Multi.Connection.Default c)
          = Except.error e) ∧
    (∀ c e, A.create_hardware_adapter c = Except.error e →
        Multi.Connection.create_hardware_adapter D A (Multi.Connection.Alternate c)
          = Except.error e) ∧
    (∀ c e, D.create_low_power_adapter c = Except.error e →
        Multi.Connection.create_low_power_adapter D A (Multi.Connection.Default c)
          = Except.error e) ∧
    (∀ c e, A.create_low_power_adapter c = Except.error e →
        Multi.Connection.create_low_power_adapter D A (Multi.Connection.Alternate c)
          = Except.error e) ∧
    (∀ c e, D.create_software_adapter c = Except.error e →
        Multi.Connection.create_software_adapter D A (Multi.Connection.Default c)
          = Except.error e) ∧
    (∀ c e, A.create_software_adapter c = Except.error e →
        Multi.Connection.create_software_adapter D A (Multi.Connection.Alternate c)
          = Except.error e) ∧
    (∀ c a e, D.create_device c a = Except.error e →
        Multi.Connection.create_device D A (Multi.Connection.Default c)
          (Multi.Adapter.Default a) = Except.error e) ∧
    (∀ c a e, A.create_device c a = Except.error e →
        Multi.Connection.create_device D A (Multi.Connection.Alternate c)
          (Multi.Adapter.Alternate a) = Except.error e) ∧
    (∀ c w e, D.create_native_widget_from_winit_window c w = Except.error e →
        Multi.Connection.create_native_widget_from_winit_window D A
          (Multi.Connection.Default c) w = Except.error e) ∧
    (∀ c w e, A.create_native_widget_from_winit_window c w = Except.error e →
        Multi.Connection.create_native_widget_from_winit_window D A
          (Multi.Connection.Alternate c) w = Except.error e) := by
  refine ⟨?_, ?_, ?_, ?_, ?_, ?_, ?_, ?_, ?_, ?_, ?_, ?_⟩ <;>
    · intros
      simp_all [Multi.Connection.create_adapter, Multi.Connection.create_hardware_adapter,
        Multi.Connection.create_low_power_adapter, Multi.Connection.create_software_adapter,
        Multi.Connection.create_device,
        Multi.Connection.create_native_widget_from_winit_window, Except.map]

/-- Witness for C7 on the all-failing toy backend in both slots: each forwarded
operation surfaces the backend's own distinct error unchanged. -/
theorem multi_error_propagation_witness :
    Multi.Connection.create_adapter Toy.err Toy.err
        (Multi.Connection.Default 0) = Except.error (Error.other 1) ∧
    Multi.Connection.create_adapter Toy.err Toy.err
        (Multi.Connection.Alternate 0) = Except.error (Error.other 1) ∧
    Multi.Connection.create_hardware_adapter Toy.err Toy.err
        (Multi.Connection.Default 0) = Except.error (Error.other 2) ∧
    Multi.Connection.create_hardware_adapter Toy.err Toy.err
        (Multi.Connection.Alternate 0) = Except.error (Error.other 2) ∧
    Multi.Connection.create_low_power_adapter Toy.err Toy.err
        (Multi.Connection.Default 0) = Except.error (Error.other 3) ∧
    Multi.Connection.create_low_power_adapter Toy.err Toy.err
        (Multi.Connection.Alternate 0) = Except.error (Error.other 3) ∧
    Multi.Connection.create_software_adapter Toy.err Toy.err
        (Multi.Connection.Default 0) = Except.error (Error.other 4) ∧
    Multi.Connection.create_software_adapter Toy.err Toy.err
        (Multi.Connection.Alternate 0) = Except.error (Error.other 4) ∧
    Multi.Connection.create_device Toy.err Toy.err (Multi.Connection.Default 0)
        (Multi.Adapter.Default 0) = Except.error (Error.other 5) ∧
    Multi.Connection.create_device Toy.err Toy.err (Multi.Connection.Alternate 0)
        (Multi.Adapter.Alternate 0) = Except.error (Error.other 5) ∧
    Multi.Connection.create_native_widget_from_winit_window Toy.err Toy.err
        (Multi.Connection.Default 0) 0 = Except.error (Error.other 8) ∧
    Multi.Connection.create_native_widget_from_winit_window Toy.err Toy.err
        (Multi.Connection.Alternate 0) 0 = Except.error (Error.other 8) := by
  obtain ⟨h1, h2, h3, h4, h5, h6, h7, h8, h9, h10, h11, h12⟩ :=
    multi_error_propagation Toy.err Toy.err
  exact ⟨h1 0 (Error.other 1) rfl, h2 0 (Error.other 1) rfl,
    h3 0 (Error.other 2) rfl, h4 0 (Error.other 2) rfl,
    h5 0 (Error.other 3) rfl, h6 0 (Error.other 3) rfl,
    h7 0 (Error.other 4) rfl, h8 0 (Error.other 4) rfl,
    h9 0 0 (Error.other 5) rfl, h10 0 0 (Error.other 5) rfl,
    h11 0 0 (Error.other 8) rfl, h12 0 0 (Error.other 8) rfl⟩

/-- Claim C9: tag preservation — for every pair of backends and every multi
connection, each successful operation (`create_adapter`,
`create_hardware_adapter`, `create_low_power_adapter`, `create_software_adapter`,
`create_device`, `create_native_widget_from_winit_window`) returns a value whose
backend tag equals the connection's tag. -/
theorem multi_tag_preservation
    {Window DC DA DD DW AC AA AD AW : Type}
    (D : ConnectionInterface Window DC DA DD DW)
    (A : ConnectionInterface Window AC AA AD AW)
    (conn : Multi.Connection DC AC) :
    (∀ a, Multi.Connection.create_adapter D A conn = Except.ok a →
        Multi.Adapter.tag a = Multi.Connection.tag conn) ∧
    (∀ a, Multi.Connection.create_hardware_adapter D A conn = Except.ok a →
        Multi.Adapter.tag a = Multi.Connection.tag conn) ∧
    (∀ a, Multi.Connection.create_low_power_adapter D A conn = Except.ok a →
        Multi.Adapter.tag a = Multi.Connection.tag conn) ∧
    (∀ a, Multi.Connection.create_software_adapter D A conn = Except.ok a →
        Multi.Adapter.tag a = Multi.Connection.tag conn) ∧
    (∀ adapter d, Multi.Connection.create_device D A conn adapter = Except.ok d →
        Multi.Device.tag d = Multi.Connection.tag conn) ∧
    (∀ w n,
        Multi.Connection.create_native_widget_from_winit_window D A conn w
          = Except.ok n →
        Multi.NativeWidget.tag n = Multi.Connection.tag conn) := by
  cases conn with
  | Default c =>
      refine ⟨?_, ?_, ?_, ?_, ?_, ?_⟩
      · intro a h
        simp only [Multi.Connection.create_adapter] at h
        obtain ⟨x, hx, rfl⟩ := except_map_eq_ok h
        rfl
      · intro a h
        simp only [Multi.Connection.create_hardware_adapter] at h
        obtain ⟨x, hx, rfl⟩ := except_map_eq_ok h
        rfl
      · intro a h
        simp only [Multi.Connection.create_low_power_adapter] at h
        obtain ⟨x, hx, rfl⟩ := except_map_eq_ok h
        rfl
      · intro a h
        simp only [Multi.Connection.create_software_adapter] at h
        obtain ⟨x, hx, rfl⟩ := except_map_eq_ok h
        rfl
      · intro adapter d h
        cases adapter with
        | Default a =>
            simp only [Multi.Connection.create_device] at h
            obtain ⟨x, hx, rfl⟩ := except_map_eq_ok h
            rfl
        | Alternate a =>
            simp [Multi.Connection.create_device] at h
      · intro w n h
        simp only [Multi.Connection.create_native_widget_from_winit_window] at h
        obtain ⟨x, hx, rfl⟩ := except_map_eq_ok h
        rfl
  | Alternate c =>
      refine ⟨?_, ?_, ?_, ?_, ?_, ?_⟩
      · intro a h
        simp only [Multi.Connection.create_adapter] at h
        obtain ⟨x, hx, rfl⟩ := except_map_eq_ok h
        rfl
      · intro a h
        simp only [Multi.Connection.create_hardware_adapter] at h
        obtain ⟨x, hx, rfl⟩ := except_map_eq_ok h
        rfl
      · intro a h
        simp only [Multi.Connection.create_low_power_adapter] at h
        obtain ⟨x, hx, rfl⟩ := except_map_eq_ok h
        rfl
      · intro a h
        simp only [Multi.Connection.create_software_adapter] at h
        obtain ⟨x, hx, rfl⟩ := except_map_eq_ok h
        rfl
      · intro adapter d h
        cases adapter with
        | Default a =>
            simp [Multi.Connection.create_device] at h
        | Alternate a =>
            simp only [Multi.Connection.create_device] at h
            obtain ⟨x, hx, rfl⟩ := except_map_eq_ok h
            rfl
      · intro w n h
        simp only [Multi.Connection.create_native_widget_from_winit_window] at h
        obtain ⟨x, hx, rfl⟩ := except_map_eq_ok h
        rfl

/-- Witness for C9 on the all-succeeding toy backend with a Default-tagged
connection: each operation's successful result carries the connection's tag. -/
theorem multi_tag_preservation_witness :
    Multi.Adapter.tag (Multi.Adapter.Default 1 : Multi.Adapter Nat Nat)
      = Multi.Connection.tag (Multi.Connection.Default 0 : Multi.Connection Nat Nat) ∧
    Multi.Adapter.tag (Multi.Adapter.Default 1 : Multi.Adapter Nat Nat)
      = Multi.Connection.tag (Multi.Connection.Default 0 : Multi.Connection Nat Nat) ∧
    Multi.Adapter.tag (Multi.Adapter.Default 2 : Multi.Adapter Nat Nat)
      = Multi.Connection.tag (Multi.Connection.Default 0 : Multi.Connection Nat Nat) ∧
    Multi.Adapter.tag (Multi.Adapter.Default 3 : Multi.Adapter Nat Nat)
      = Multi.Connection.tag (Multi.Connection.Default 0 : Multi.Connection Nat Nat) ∧
    Multi.Device.tag (Multi.Device.Default 4 : Multi.Device Nat Nat)
      = Multi.Connection.tag (Multi.Connection.Default 0 : Multi.Connection Nat Nat) ∧
    Multi.NativeWidget.tag (Multi.NativeWidget.Default 7 : Multi.NativeWidget Nat Nat)
      = Multi.Connection.tag (Multi.Connection.Default 0 : Multi.Connection Nat Nat) := by
  obtain ⟨h1, h2, h3, h4, h5, h6⟩ :=
    multi_tag_preservation Toy.ok Toy.ok (Multi.Connection.Default 0)
  exact ⟨h1 (Multi.Adapter.Default 1) rfl, h2 (Multi.Adapter.Default 1) rfl,
    h3 (Multi.Adapter.Default 2) rfl, h4 (Multi.Adapter.Default 3) rfl,
    h5 (Multi.Adapter.Default 4) (Multi.Device.Default 4) rfl,
    h6 7 (Multi.NativeWidget.Default 7) rfl⟩
